import Mathlib

set_option maxRecDepth 8000

/-!
# Daily Word Lifecycle and Submission Ledger — verification development

Shallow embedding of the ledger and lifecycle logic of the repository:

* `src/context/AppStateContext.tsx` — `generateNewDay`, `manuallySetWord`,
  `likeSubmission`, `addSubmission`, `regenerateImage`, and the mount-time
  current-day check (lines 225-231);
* `src/unnamed/part_001` — the Express backend (`/api/submit`, `/api/generate`);
* `src/api/generate.js` — the word-generation handler.

External capabilities (word generation, image generation, definition
summarization) are single request/response calls that either return text or
fail; they are embedded as explicit `Except`/`Option` oracle parameters, so
each code path of the source becomes a branch of a total Lean function.
State updates (the React `setArchive`/`setSubmissions`/`setCurrentWord`
calls, resp. the backend `writeData`) become explicit state passing; for
`generateNewDay` we additionally keep the full trace of intermediate states,
one entry per mutation the source performs, so that claims about observable
intermediate states can be settled.
-/

/-- Record for `DailyWord` from `src/types` as used by `AppStateContext.tsx`:
the current word, its optional generated image, and its calendar-day key.
JS `undefined`/`null` images are `none`. -/
structure DailyWord where
  word : String
  image : Option String
  date : String
deriving DecidableEq, Repr

/-- Record for `Submission` as created by `addSubmission`
(`AppStateContext.tsx:310-315`): id, trimmed text, username, like counter. -/
structure Submission where
  id : String
  text : String
  username : String
  likes : Nat
deriving DecidableEq, Repr

/-- Record for `ArchivedWord`: the outgoing word spread together with its
`winningDefinitions` (`AppStateContext.tsx:143,151`). -/
structure ArchivedWord where
  word : String
  image : Option String
  date : String
  winningDefinitions : List String
deriving DecidableEq, Repr

/-- Record for the ledger aggregate: the pieces of React state owned by
`AppStateProvider` that the claims are about (`currentWord`, `submissions`,
`archive`), matching the backend document `{ current, submissions, archive }`
of `src/unnamed/part_001`. -/
structure AppState where
  currentWord : Option DailyWord
  submissions : List Submission
  archive : List ArchivedWord
deriving DecidableEq, Repr

/-- Embedding of the JS `text.trim()` used throughout the source: strip
whitespace from both ends of the string. Written by structural recursion on
the character list so that it evaluates inside the kernel (the library
function `String.trim` recurses on byte positions and does not reduce). -/
def jsTrim (s : String) : String :=
  String.mk (((s.data.dropWhile Char.isWhitespace).reverse.dropWhile Char.isWhitespace).reverse)

/-- Translation of `{ ...currentWord, winningDefinitions }` — building an
`ArchivedWord` from the outgoing `DailyWord` by object spread
(`AppStateContext.tsx:143,151`). -/
def toArchived (w : DailyWord) (defs : List String) : ArchivedWord :=
  { word := w.word, image := w.image, date := w.date, winningDefinitions := defs }

/-- Sentinel list used when a day had no submissions
(`AppStateContext.tsx:151`). -/
def sentinelDefs : List String :=
  ["No definitions were submitted for this word."]

/-- Environment of one `generateNewDay` run: the configuration read from
React state plus the outcome of each external call the run would make.
`cached` is the lookup `localStorage.getItem ("wordData_" ++ today)`
(`AppStateContext.tsx:162`); `summarizeResult`, `wordResult`, `imageResult`
are the outcomes of `summarizeDefinitions`, `generateNonsenseWord` and
`generateImageWithClipDrop` respectively, each a call that may fail. -/
structure GenEnv where
  today : String
  geminiKey : String
  clipdropKey : String
  enableImages : Bool
  cached : Option DailyWord
  summarizeResult : Except Unit (List String)
  wordResult : Except Unit String
  imageResult : Except Unit String
deriving Repr

/-- Step 1 of `generateNewDay` (`AppStateContext.tsx:137-154`): if a current
word exists and submissions are non-empty, call `summarizeDefinitions`
provided the Gemini key is set (the guard `if (geminiKey)` at line 141),
prepending the archived entry on success and swallowing the error on failure
(the catch at line 147); if a current word exists and submissions are empty,
prepend the sentinel entry. Returns the state after this step together with
whether `summarizeDefinitions` was invoked. -/
def archiveStep (env : GenEnv) (s : AppState) : AppState × Bool :=
  match s.currentWord, s.submissions with
  | some w, _ :: _ =>
    if env.geminiKey = "" then (s, false)
    else
      match env.summarizeResult with
      | Except.ok defs => ({ s with archive := toArchived w defs :: s.archive }, true)
      | Except.error _ => (s, true)
  | some w, [] =>
    ({ s with archive := toArchived w sentinelDefs :: s.archive }, false)
  | none, _ => (s, false)

/-- Step 3 of `generateNewDay` (`AppStateContext.tsx:160-189`): if a cached
word for today exists, set it as current and return early; otherwise call
`generateNonsenseWord`; on success attempt image generation when
`enableImages && apiKeys.clipdrop` holds, swallowing a failure (the image
stays undefined), and set the new word with the day key of today; if word
generation threw, the catch at line 184 sets the placeholder
`{ word: "Error", image: undefined, date: today }`. -/
def newWordStep (env : GenEnv) (s : AppState) : AppState :=
  match env.cached with
  | some c => { s with currentWord := some c }
  | none =>
    match env.wordResult with
    | Except.ok word =>
      let image : Option String :=
        if env.enableImages && env.clipdropKey ≠ "" then
          match env.imageResult with
          | Except.ok img => some img
          | Except.error _ => none
        else none
      { s with currentWord := some { word := word, image := image, date := env.today } }
    | Except.error _ =>
      { s with currentWord := some { word := "Error", image := none, date := env.today } }

/-- Full `generateNewDay` run (`AppStateContext.tsx:134-190`) as the list of
ledger states an observer could read, one entry per mutation the source
performs, in source order: the initial state, the state after the archival
step (1), the state after `setSubmissions([])` (2), and the state after the
current word is set (3). The `Bool` records whether `summarizeDefinitions`
was invoked. -/
def generateNewDayTrace (env : GenEnv) (s : AppState) : List AppState × Bool :=
  let a := archiveStep env s
  let s2 : AppState := { a.1 with submissions := [] }
  let s3 := newWordStep env s2
  ([s, a.1, s2, s3], a.2)

/-- Final ledger state of a `generateNewDay` run. -/
def generateNewDay (env : GenEnv) (s : AppState) : AppState :=
  (generateNewDayTrace env s).1.getLastD s

/-- Ensure-current-day operation: the mount-time check of
`AppStateContext.tsx:225-231` — if the date of the loaded current word
equals the day key of today, the word is kept and nothing is mutated;
otherwise `generateNewDay()` is invoked. -/
def ensureCurrentDay (env : GenEnv) (s : AppState) : AppState :=
  match s.currentWord with
  | some w => if w.date = env.today then s else generateNewDay env s
  | none => generateNewDay env s

/-- Image computed by `manuallySetWord` (`AppStateContext.tsx:350-357`):
attempted only when `apiKeys.clipdrop` is set, and its failure is swallowed,
leaving the image undefined. -/
def manualImage (clipdropKey : String) (imageResult : Except Unit String) : Option String :=
  if clipdropKey ≠ "" then
    match imageResult with
    | Except.ok img => some img
    | Except.error _ => none
  else none

/-- Translation of `manuallySetWord` (`AppStateContext.tsx:347-367`): attempt
image generation, set the current word to the caller-supplied literal with
the day key of today, and clear the submissions. No other field of the
ledger is touched. -/
def manuallySetWord (today clipdropKey : String) (imageResult : Except Unit String)
    (word : String) (s : AppState) : AppState :=
  { s with
    currentWord := some { word := word, image := manualImage clipdropKey imageResult, date := today }
    submissions := [] }

/-- Translation of `likeSubmission` (`AppStateContext.tsx:336-340`): map over
the pool, bumping `likes` of every submission whose id matches and leaving
every other entry alone. The source returns nothing and signals no error;
the call always completes normally with the mapped pool. -/
def likeSubmission (id : String) (subs : List Submission) : List Submission :=
  subs.map fun sub => if sub.id = id then { sub with likes := sub.likes + 1 } else sub

/-- Translation of `addSubmission` (`AppStateContext.tsx:307-316`): if the
text is empty after trimming, return without touching the pool (the guard
`if (!text.trim()) return`); otherwise append a new submission with the
trimmed text, the resolved username, a fresh id and zero likes. `newId` and
`username` stand for the call `generateUniqueId()` and for the resolved
username. The source performs no length check on the text. -/
def addSubmission (newId username text : String) (subs : List Submission) : List Submission :=
  if jsTrim text = "" then subs
  else subs ++ [{ id := newId, text := jsTrim text, username := username, likes := 0 }]

/-- Translation of the backend handler `/api/submit`
(`src/unnamed/part_001:165-170,242-249`): reject with a 400 error when the
text is empty after trimming (the guard `if (!text || !text.trim())`);
otherwise push the new submission onto the pool of the ledger and answer it.
The handler performs no length check on the text. -/
def apiSubmit (newId username text : String) (s : AppState) :
    Except Unit (Submission × AppState) :=
  if jsTrim text = "" then Except.error ()
  else
    let sub : Submission := { id := newId, text := jsTrim text, username := username, likes := 0 }
    Except.ok (sub, { s with submissions := s.submissions ++ [sub] })

/-- Alphabetic test matching the regex `[^a-zA-Z]` used to strip characters
in `src/api/generate.js:18`. -/
def isAlphaChar (c : Char) : Bool :=
  ('a' ≤ c && c ≤ 'z') || ('A' ≤ c && c ≤ 'Z')

/-- Word normalization of the generation handler (`src/api/generate.js:17-18`
and `src/unnamed/part_001:270-271`):
`raw.trim().replace(/[^a-zA-Z]/g, "").slice(0, 12)`. -/
def normalizeWord (raw : String) : String :=
  String.mk (((jsTrim raw).data.filter isAlphaChar).take 12)

/-- Translation of the word-generation handler (`src/api/generate.js:13-52`):
if the external model call errors, the handler answers 500 (`Except.error`);
otherwise it normalizes the returned text and answers the word data — with
no check that the normalized word is non-empty or at least 6 characters
long. `imageResult` is the optional ClipDrop image, whose failure the
handler swallows. -/
def generateWordHandler (apiResult : Except Unit String) (imageResult : Option String)
    (today : String) : Except Unit DailyWord :=
  match apiResult with
  | Except.error e => Except.error e
  | Except.ok raw =>
    Except.ok { word := normalizeWord raw, image := imageResult, date := today }

/-- Translation of `regenerateImage` (`AppStateContext.tsx:392-408`): return
unchanged when no current word exists; when the ClipDrop key is missing only
a notification is shown; when image generation fails the catch leaves the
state untouched; on success only the image of the current word is
replaced. -/
def regenerateImage (clipdropKey : String) (imageResult : Except Unit String)
    (s : AppState) : AppState :=
  match s.currentWord with
  | none => s
  | some w =>
    if clipdropKey ≠ "" then
      match imageResult with
      | Except.ok img => { s with currentWord := some { w with image := some img } }
      | Except.error _ => s
    else s

/-! ## Concrete fixtures

Concrete ledgers and environments used by the closed evaluation theorems:
they instantiate the scenario of the spec (a current word of 2024-01-01 that
should roll over on 2024-01-02) with each relevant combination of external
outcomes. -/

/-- Ledger holding a word of 2024-01-01 with one pending submission. -/
def ledgerBlorvek : AppState :=
  { currentWord := some { word := "Blorvek", image := none, date := "2024-01-01" }
    submissions := [{ id := "id1", text := "a floating feeling", username := "CuriousDuck", likes := 0 }]
    archive := [] }

/-- Ledger holding a word of 2024-01-01 with an empty submissions pool. -/
def ledgerEmptyPool : AppState :=
  { currentWord := some { word := "Blorvek", image := none, date := "2024-01-01" }
    submissions := []
    archive := [] }

/-- Ledger whose current word already carries the day key 2024-01-02. -/
def ledgerToday : AppState :=
  { currentWord := some { word := "Velloria", image := none, date := "2024-01-02" }
    submissions := []
    archive := [] }

/-- Environment in which word generation fails and nothing is cached. -/
def envWordFail : GenEnv :=
  { today := "2024-01-02", geminiKey := "gk", clipdropKey := "", enableImages := false,
    cached := none, summarizeResult := Except.ok ["a floating feeling"],
    wordResult := Except.error (), imageResult := Except.error () }

/-- Environment in which summarization fails but word generation succeeds. -/
def envSummarizeFail : GenEnv :=
  { today := "2024-01-02", geminiKey := "gk", clipdropKey := "", enableImages := false,
    cached := none, summarizeResult := Except.error (),
    wordResult := Except.ok "Valtorin", imageResult := Except.error () }

/-- Environment in which everything succeeds except image generation. -/
def envImageFail : GenEnv :=
  { today := "2024-01-02", geminiKey := "gk", clipdropKey := "ck", enableImages := true,
    cached := none, summarizeResult := Except.ok ["a floating feeling"],
    wordResult := Except.ok "Valtorin", imageResult := Except.error () }

/-- Text of 281 letters, one character beyond the documented 280 limit. -/
def longText : String := String.mk (List.replicate 281 'a')

/-! ## Helper lemmas -/

/-- Unfolding of `generateNewDay` into its two steps. -/
theorem generateNewDay_eq (env : GenEnv) (s : AppState) :
    generateNewDay env s = newWordStep env { (archiveStep env s).1 with submissions := [] } :=
  rfl

/-- The archival step never changes the current word. -/
theorem archiveStep_currentWord (env : GenEnv) (s : AppState) :
    (archiveStep env s).1.currentWord = s.currentWord := by
  rcases s with ⟨cw, subs, arch⟩
  rcases cw with _ | w
  · rfl
  · rcases subs with _ | ⟨h, t⟩
    · rfl
    · by_cases hg : env.geminiKey = ""
      · simp [archiveStep, hg]
      · rcases hr : env.summarizeResult with e | defs <;> simp [archiveStep, hg, hr]

/-- The archival step never changes the submissions pool. -/
theorem archiveStep_submissions (env : GenEnv) (s : AppState) :
    (archiveStep env s).1.submissions = s.submissions := by
  rcases s with ⟨cw, subs, arch⟩
  rcases cw with _ | w
  · rfl
  · rcases subs with _ | ⟨h, t⟩
    · rfl
    · by_cases hg : env.geminiKey = ""
      · simp [archiveStep, hg]
      · rcases hr : env.summarizeResult with e | defs <;> simp [archiveStep, hg, hr]

/-- The new-word step never changes the submissions pool. -/
theorem newWordStep_submissions (env : GenEnv) (s : AppState) :
    (newWordStep env s).submissions = s.submissions := by
  unfold newWordStep
  rcases env.cached with _ | c <;> simp
  rcases env.wordResult with _ | w <;> simp

/-- The new-word step never changes the archive. -/
theorem newWordStep_archive (env : GenEnv) (s : AppState) :
    (newWordStep env s).archive = s.archive := by
  unfold newWordStep
  rcases env.cached with _ | c <;> simp
  rcases env.wordResult with _ | w <;> simp

/-- After any `generateNewDay` run the submissions pool is empty. -/
theorem generateNewDay_submissions (env : GenEnv) (s : AppState) :
    (generateNewDay env s).submissions = [] := by
  rw [generateNewDay_eq, newWordStep_submissions]

/-- Provided a cached word for today carries the day key of today, the
current word left by `generateNewDay` always carries the day key of
today. -/
theorem generateNewDay_date_today (env : GenEnv) (s : AppState)
    (hc : ∀ c, env.cached = some c → c.date = env.today) :
    ∃ w, (generateNewDay env s).currentWord = some w ∧ w.date = env.today := by
  rw [generateNewDay_eq]
  unfold newWordStep
  rcases hcached : env.cached with _ | c
  · rcases env.wordResult with _ | w <;> simp
  · exact ⟨c, by simp, hc c hcached⟩

/-- Under the same hypothesis, `ensureCurrentDay` always leaves a current
word carrying the day key of today. -/
theorem ensureCurrentDay_date_today (env : GenEnv) (s : AppState)
    (hc : ∀ c, env.cached = some c → c.date = env.today) :
    ∃ w, (ensureCurrentDay env s).currentWord = some w ∧ w.date = env.today := by
  unfold ensureCurrentDay
  rcases hcw : s.currentWord with _ | w
  · exact generateNewDay_date_today env s hc
  · by_cases hd : w.date = env.today
    · exact ⟨w, by simp [hd, hcw], hd⟩
    · simpa [hd] using generateNewDay_date_today env s hc

/-- A state whose current word carries the day key of today is a fixed point
of `ensureCurrentDay` (the fast path at `AppStateContext.tsx:225-228`). -/
theorem ensureCurrentDay_fixed (env : GenEnv) (s : AppState) (w : DailyWord)
    (hw : s.currentWord = some w) (hd : w.date = env.today) :
    ensureCurrentDay env s = s := by
  unfold ensureCurrentDay
  rw [hw]
  simp [hd]

/-- Helper: mapping the like bump over a pool in which no id matches leaves
the pool unchanged. -/
theorem likeSubmission_not_found (id : String) :
    ∀ subs : List Submission, (∀ t ∈ subs, t.id ≠ id) → likeSubmission id subs = subs
  | [], _ => rfl
  | x :: t, h => by
    have hx : x.id ≠ id := h x (by simp)
    have ht : likeSubmission id t = t :=
      likeSubmission_not_found id t (fun y hy => h y (by simp [hy]))
    simp only [likeSubmission, List.map_cons] at ht ⊢
    rw [if_neg hx, ht]

/-! ## Claim theorems -/

/-- Claim C1 (code bug): the claim asserts full-rollback atomicity — if word
generation fails during a rollover, then `current`, `submissions` and
`archive` all keep their values from before the call. The source instead
archives the outgoing word and clears the submissions BEFORE calling
`generateNonsenseWord`, and its catch handler sets the placeholder word
"Error" rather than restoring anything (`AppStateContext.tsx:137-157,184-186`).
This theorem evaluates `generateNewDay` on a concrete ledger under a failing
word generation: all three components change. -/
theorem generateNewDay_wordFailure_mutates_ledger :
    generateNewDay envWordFail ledgerBlorvek =
      { currentWord := some { word := "Error", image := none, date := "2024-01-02" },
        submissions := [],
        archive := [{ word := "Blorvek", image := none, date := "2024-01-01",
                      winningDefinitions := ["a floating feeling"] }] } := by
  decide

/-- Claim C2, counterexample: a rollover that completes successfully (a new
current word is produced) while summarization failed performs NO archive
prepend at all — the outgoing word "Blorvek" is dropped from history even
though the rollover succeeded, refuting the claim that every successful
rollover prepends the ArchivedWord of the outgoing word in the same
transaction. -/
theorem rollover_success_without_archive_cex :
    generateNewDay envSummarizeFail ledgerBlorvek =
      { currentWord := some { word := "Valtorin", image := none, date := "2024-01-02" },
        submissions := [], archive := [] } := by
  decide

/-- Claim C2, amended: the three updates of a rollover are separate state
updates, not one transaction, and the archive prepend can be skipped
entirely; but the ordering of the source (clear `submissions` before setting
the new `current`) does guarantee the observable part of invariant I1: in
every intermediate state of a `generateNewDay` run, a current word different
from the initial one is only ever observable together with an empty
submissions pool — old submissions never coexist with a new current word. -/
theorem rollover_no_stale_submissions_with_new_word (env : GenEnv) (s st : AppState)
    (hmem : st ∈ (generateNewDayTrace env s).1) (hne : st.currentWord ≠ s.currentWord) :
    st.submissions = [] := by
  have htrace : (generateNewDayTrace env s).1 =
      [s, (archiveStep env s).1, { (archiveStep env s).1 with submissions := [] },
        newWordStep env { (archiveStep env s).1 with submissions := [] }] := rfl
  rw [htrace] at hmem
  simp only [List.mem_cons, List.not_mem_nil, or_false] at hmem
  rcases hmem with h | h | h | h
  · subst h; exact absurd rfl hne
  · subst h; exact absurd (archiveStep_currentWord env s) hne
  · subst h; rfl
  · subst h; rw [newWordStep_submissions]

/-- Witness for the amended claim C2: the final state of a concrete rollover
is in the trace and carries a changed current word, hence an empty pool. -/
theorem rollover_no_stale_submissions_with_new_word_witness :
    (generateNewDay envSummarizeFail ledgerBlorvek).submissions = [] :=
  rollover_no_stale_submissions_with_new_word envSummarizeFail ledgerBlorvek
    (generateNewDay envSummarizeFail ledgerBlorvek) (by decide) (by decide)

/-- Claim C3 (confirmed): `ensureCurrentDay` — the mount-time date check that
falls back to `generateNewDay` — is idempotent within a calendar day: when
the current word carries the day key of today it returns the state unchanged
(fast path, mutating nothing), and iterating the operation N ≥ 1 times
equals performing it once, so at most one rollover happens in total. The
hypothesis `hc` states that a cached word stored under the key of today
carries the day key of today, which holds because `generateNewDay` stores
the cache entry `wordData_<today>` with `date` equal to today
(`AppStateContext.tsx:181-182`). -/
theorem ensureCurrentDay_idempotent (env : GenEnv) (s : AppState)
    (hc : ∀ c, env.cached = some c → c.date = env.today) :
    (∀ w, s.currentWord = some w → w.date = env.today → ensureCurrentDay env s = s)
    ∧ ∀ n : Nat, Nat.iterate (ensureCurrentDay env) (n + 1) s = ensureCurrentDay env s := by
  constructor
  · intro w hw hd
    exact ensureCurrentDay_fixed env s w hw hd
  · have hfix : ∀ t : AppState,
        ensureCurrentDay env (ensureCurrentDay env t) = ensureCurrentDay env t := by
      intro t
      obtain ⟨w, hw, hd⟩ := ensureCurrentDay_date_today env t hc
      exact ensureCurrentDay_fixed env _ w hw hd
    intro n
    induction n with
    | zero => rfl
    | succ m ih =>
      rw [Function.iterate_succ_apply' (ensureCurrentDay env) (m + 1) s, ih, hfix]

/-- Witness for claim C3 at concrete inputs: the fast path keeps a
same-day ledger unchanged, and two iterations equal one. -/
theorem ensureCurrentDay_idempotent_witness :
    ensureCurrentDay envWordFail ledgerToday = ledgerToday
    ∧ Nat.iterate (ensureCurrentDay envWordFail) 2 ledgerBlorvek =
        ensureCurrentDay envWordFail ledgerBlorvek :=
  ⟨(ensureCurrentDay_idempotent envWordFail ledgerToday (fun _ h => nomatch h)).1
      { word := "Velloria", image := none, date := "2024-01-02" } rfl rfl,
    (ensureCurrentDay_idempotent envWordFail ledgerBlorvek (fun _ h => nomatch h)).2 1⟩

/-- Claim C4, counterexample: `manuallySetWord` on a ledger that does hold a
current word ("Blorvek") leaves the archive exactly as it was — empty — so
the outgoing current word is NOT archived, refuting the claimed archival of
the outgoing word. -/
theorem manuallySetWord_no_archive_cex :
    manuallySetWord "2024-01-02" "ck" (Except.error ()) "Zephyr" ledgerBlorvek =
      { currentWord := some { word := "Zephyr", image := none, date := "2024-01-02" },
        submissions := [], archive := [] } := by
  decide

/-- Claim C4, amended: `manuallySetWord` attempts image generation (only when
a ClipDrop key is configured, with a swallowed failure), sets `current` to
the supplied literal with the day key of today, and clears `submissions`;
the archive is left untouched — the outgoing word is not archived. -/
theorem manuallySetWord_behavior (today clipdropKey : String)
    (imageResult : Except Unit String) (word : String) (s : AppState) :
    (manuallySetWord today clipdropKey imageResult word s).archive = s.archive
    ∧ (manuallySetWord today clipdropKey imageResult word s).submissions = []
    ∧ (manuallySetWord today clipdropKey imageResult word s).currentWord =
        some { word := word, image := manualImage clipdropKey imageResult, date := today } :=
  ⟨rfl, rfl, rfl⟩

/-- Claim C5, counterexample: liking an id that matches no submission
completes normally with the pool unchanged — the source `likeSubmission` is
a plain state map with no return value and no error channel, so no
`NotFoundError` is ever produced, refuting the claimed error. -/
theorem likeSubmission_missing_id_cex :
    likeSubmission "zzz"
      [{ id := "id1", text := "a floating feeling", username := "CuriousDuck", likes := 0 }] =
      [{ id := "id1", text := "a floating feeling", username := "CuriousDuck", likes := 0 }] := by
  decide

/-- Claim C5, amended: liking an id that matches no submission in the pool is
a silent no-op — every like count (indeed the whole pool) is unchanged and no
error is signalled; liking an id that occurs at exactly one position
increments the like count of exactly that submission by one and leaves every
other submission unchanged. -/
theorem likeSubmission_spec (id : String) (subs : List Submission) :
    ((∀ t ∈ subs, t.id ≠ id) → likeSubmission id subs = subs)
    ∧ (∀ pre mid post, subs = pre ++ mid :: post → mid.id = id →
        (∀ t ∈ pre, t.id ≠ id) → (∀ t ∈ post, t.id ≠ id) →
        likeSubmission id subs = pre ++ { mid with likes := mid.likes + 1 } :: post) := by
  constructor
  · exact likeSubmission_not_found id subs
  · intro pre mid post hsubs hmid hpre hpost
    subst hsubs
    have h1 : likeSubmission id pre = pre := likeSubmission_not_found id pre hpre
    have h2 : likeSubmission id post = post := likeSubmission_not_found id post hpost
    simp only [likeSubmission, List.map_append, List.map_cons] at h1 h2 ⊢
    rw [h1, h2, if_pos hmid]

/-- Witness for the amended claim C5: liking the first of two submissions
bumps exactly its counter. -/
theorem likeSubmission_spec_witness :
    likeSubmission "id1"
      [{ id := "id1", text := "a", username := "u", likes := 0 },
        { id := "id2", text := "b", username := "v", likes := 3 }] =
      [{ id := "id1", text := "a", username := "u", likes := 1 },
        { id := "id2", text := "b", username := "v", likes := 3 }] :=
  (likeSubmission_spec "id1"
      [{ id := "id1", text := "a", username := "u", likes := 0 },
        { id := "id2", text := "b", username := "v", likes := 3 }]).2
    [] { id := "id1", text := "a", username := "u", likes := 0 }
    [{ id := "id2", text := "b", username := "v", likes := 3 }]
    rfl rfl (by simp) (by decide)

/-- Claim C6, counterexample: a 281-character text is happily appended by
`addSubmission` and accepted by the backend `/api/submit` — there is no
280-character validation anywhere in the intake path (the limit exists only
as a textarea attribute in the presentation layer), refuting the claimed
`ValidationError` for over-long texts. -/
theorem addSubmission_no_length_check_cex :
    280 < longText.length
    ∧ addSubmission "id1" "CuriousDuck" longText [] =
        [{ id := "id1", text := longText, username := "CuriousDuck", likes := 0 }]
    ∧ apiSubmit "id1" "CuriousDuck" longText
        { currentWord := none, submissions := [], archive := [] } =
      Except.ok ({ id := "id1", text := longText, username := "CuriousDuck", likes := 0 },
        { currentWord := none,
          submissions := [{ id := "id1", text := longText, username := "CuriousDuck", likes := 0 }],
          archive := [] }) := by
  refine ⟨by decide, by decide, rfl⟩

/-- Claim C6, amended: a text that is empty after trimming is rejected with
no side effect (the client returns silently without appending and without an
error value; the backend answers a 400 error), and every text that is
non-empty after trimming is appended — regardless of its length, because
neither intake path checks the 280-character limit. -/
theorem submit_validation (newId username text : String) (subs : List Submission)
    (s : AppState) :
    (jsTrim text = "" →
      addSubmission newId username text subs = subs
      ∧ apiSubmit newId username text s = Except.error ())
    ∧ (jsTrim text ≠ "" →
      addSubmission newId username text subs =
        subs ++ [{ id := newId, text := jsTrim text, username := username, likes := 0 }]
      ∧ apiSubmit newId username text s =
        Except.ok ({ id := newId, text := jsTrim text, username := username, likes := 0 },
          { s with submissions :=
              s.submissions ++ [{ id := newId, text := jsTrim text, username := username, likes := 0 }] })) := by
  constructor
  · intro h
    exact ⟨by simp [addSubmission, h], by simp [apiSubmit, h]⟩
  · intro h
    exact ⟨by simp [addSubmission, h], by simp [apiSubmit, h]⟩

/-- Witness for the amended claim C6: a blank text is dropped by the client
and rejected by the backend; the text "hello" is appended. -/
theorem submit_validation_witness :
    (addSubmission "i" "u" " " [] = []
      ∧ apiSubmit "i" "u" " " { currentWord := none, submissions := [], archive := [] } =
          Except.error ())
    ∧ addSubmission "i" "u" "hello" [] =
        [{ id := "i", text := "hello", username := "u", likes := 0 }] :=
  ⟨(submit_validation "i" "u" " " [] { currentWord := none, submissions := [], archive := [] }).1
      (by decide),
    ((submit_validation "i" "u" "hello" []
        { currentWord := none, submissions := [], archive := [] }).2 (by decide)).1⟩

/-- Claim C7, counterexample: the generation handler performs no minimum
length check and no non-empty check. On the raw model output "123" the
normalized word is empty and the handler still answers success with the
empty word; on "ab!" the normalized word has 2 characters, outside the
claimed 6-12 range. -/
theorem generateWord_no_minimum_cex :
    generateWordHandler (Except.ok "123") none "2024-01-02" =
      Except.ok { word := "", image := none, date := "2024-01-02" }
    ∧ normalizeWord "ab!" = "ab" := by
  refine ⟨rfl, by decide⟩

/-- Claim C7, amended: every word produced by the generation handler consists
of AT MOST 12 alphabetic characters (non-alphabetic characters stripped,
then truncated to 12) — there is no lower bound and no non-empty guarantee —
and the handler fails exactly when the external capability errors. -/
theorem generateWord_normalization (raw today : String) (img : Option String) :
    (normalizeWord raw).length ≤ 12
    ∧ (normalizeWord raw).data.all isAlphaChar = true
    ∧ generateWordHandler (Except.ok raw) img today =
        Except.ok { word := normalizeWord raw, image := img, date := today }
    ∧ generateWordHandler (Except.error ()) img today = Except.error () := by
  refine ⟨?_, ?_, rfl, rfl⟩
  · calc (normalizeWord raw).length
        = (((jsTrim raw).data.filter isAlphaChar).take 12).length := rfl
      _ ≤ 12 := by rw [List.length_take]; exact min_le_left _ _
  · rw [show (normalizeWord raw).data = ((jsTrim raw).data.filter isAlphaChar).take 12 from rfl,
      List.all_eq_true]
    intro x hx
    exact List.of_mem_filter (List.mem_of_mem_take hx)

/-- Claim C8 (confirmed): a rollover performed while the pool is empty and a
current word exists does not invoke the summarization capability and
archives the outgoing word with exactly the sentinel winning-definitions
list (`AppStateContext.tsx:150-154`). -/
theorem rollover_empty_pool_sentinel (env : GenEnv) (s : AppState) (w : DailyWord)
    (hw : s.currentWord = some w) (hs : s.submissions = []) :
    (generateNewDayTrace env s).2 = false
    ∧ (generateNewDay env s).archive = toArchived w sentinelDefs :: s.archive := by
  have ha : archiveStep env s =
      ({ s with archive := toArchived w sentinelDefs :: s.archive }, false) := by
    unfold archiveStep
    rw [hw, hs]
  constructor
  · show (archiveStep env s).2 = false
    rw [ha]
  · rw [generateNewDay_eq, newWordStep_archive]
    show ({ (archiveStep env s).1 with submissions := [] } : AppState).archive = _
    rw [ha]

/-- Witness for claim C8 at a concrete empty-pool ledger. -/
theorem rollover_empty_pool_sentinel_witness :
    (generateNewDayTrace envWordFail ledgerEmptyPool).2 = false
    ∧ (generateNewDay envWordFail ledgerEmptyPool).archive =
        toArchived { word := "Blorvek", image := none, date := "2024-01-01" } sentinelDefs
          :: ledgerEmptyPool.archive :=
  rollover_empty_pool_sentinel envWordFail ledgerEmptyPool
    { word := "Blorvek", image := none, date := "2024-01-01" } rfl rfl

/-- Claim C9 (confirmed): a failing image generation is non-fatal. During a
rollover whose word generation succeeds, the run still succeeds and yields
the new current word with no image; and `regenerateImage` under a failing
image generation leaves the whole state — in particular the previous image —
unchanged. -/
theorem image_failure_nonfatal (env : GenEnv) (s : AppState) (word : String)
    (hcache : env.cached = none) (hword : env.wordResult = Except.ok word)
    (himg : env.imageResult = Except.error ()) :
    (generateNewDay env s).currentWord =
      some { word := word, image := none, date := env.today }
    ∧ ∀ key st, regenerateImage key (Except.error ()) st = st := by
  constructor
  · rw [generateNewDay_eq]
    unfold newWordStep
    rw [hcache, hword]
    simp [himg]
  · intro key st
    rcases st with ⟨cw, subs, arch⟩
    rcases cw with _ | w
    · rfl
    · by_cases hk : key = ""
      · simp [regenerateImage, hk]
      · simp [regenerateImage, hk]

/-- Witness for claim C9 at concrete inputs. -/
theorem image_failure_nonfatal_witness :
    (generateNewDay envImageFail ledgerBlorvek).currentWord =
      some { word := "Valtorin", image := none, date := "2024-01-02" }
    ∧ regenerateImage "ck" (Except.error ()) ledgerBlorvek = ledgerBlorvek :=
  ⟨(image_failure_nonfatal envImageFail ledgerBlorvek "Valtorin" rfl rfl rfl).1,
    (image_failure_nonfatal envImageFail ledgerBlorvek "Valtorin" rfl rfl rfl).2
      "ck" ledgerBlorvek⟩

/-- Claim C10 (confirmed, implicit): when word generation throws and no
cached word for today exists, `generateNewDay` finishes with the submissions
cleared and the placeholder word "Error" carrying the day key of today as
current — so a subsequent same-day `ensureCurrentDay` takes the fast path
and returns the placeholder state unchanged. -/
theorem wordFailure_placeholder (env : GenEnv) (s : AppState)
    (hcache : env.cached = none) (hword : env.wordResult = Except.error ()) :
    (generateNewDay env s).submissions = []
    ∧ (generateNewDay env s).currentWord =
        some { word := "Error", image := none, date := env.today }
    ∧ ensureCurrentDay env (generateNewDay env s) = generateNewDay env s := by
  have hcur : (generateNewDay env s).currentWord =
      some { word := "Error", image := none, date := env.today } := by
    rw [generateNewDay_eq]
    unfold newWordStep
    rw [hcache, hword]
  exact ⟨generateNewDay_submissions env s, hcur,
    ensureCurrentDay_fixed env _ _ hcur rfl⟩

/-- Witness for claim C10 at a concrete ledger. -/
theorem wordFailure_placeholder_witness :
    (generateNewDay envWordFail ledgerBlorvek).submissions = []
    ∧ (generateNewDay envWordFail ledgerBlorvek).currentWord =
        some { word := "Error", image := none, date := "2024-01-02" }
    ∧ ensureCurrentDay envWordFail (generateNewDay envWordFail ledgerBlorvek) =
        generateNewDay envWordFail ledgerBlorvek :=
  wordFailure_placeholder envWordFail ledgerBlorvek rfl rfl
